import Mathlib

/-!
# Verification development for the VerifAI analysis pipeline

Shallow embedding of the orchestration core found in `src/verifai/`:
the verifier node (`nodes/verifier.py`), the two classification variants
(`nodes/manipulation_classifier_binary.py`, `nodes/manipulation_classifier.py`),
the fact checker (`nodes/fact_checker.py`), the narrative extractor
(`nodes/narrative_extractor.py`) and the pipeline wiring (`graph.py`).

External backends (the generation LLM, the scoring model pipeline, the
Perplexity search provider) are modelled as oracles: each stage takes the
outcome of its backend calls as data.  A raised Python exception from a
backend is the `fail` constructor carrying `str(e)`; the stage bodies are
written as `Except`-valued functions mirroring the `try:` blocks, and the
stage functions apply the `except` handlers.  Python floats are modelled
as rationals; machine rounding plays no role in any property below since
the decision constants (0.15, 0.5) are compared against exact values.
-/

namespace VerifAI

/-! ## Python string helpers -/

/-- `not s.strip()` in Python: the string is empty or all whitespace. -/
def pyIsBlank (s : String) : Bool := s.data.all Char.isWhitespace

/-- Whitespace trimming at both ends of a character list. -/
def trimChars (cs : List Char) : List Char :=
  ((cs.dropWhile Char.isWhitespace).reverse.dropWhile Char.isWhitespace).reverse

/-- `s.strip()` in Python (whitespace trimming at both ends). -/
def pyStrip (s : String) : String := String.mk (trimChars s.data)

/-- Split a character list at every occurrence of `sep` (Python
`s.split(sep)` for a one-character separator: preserves empty pieces). -/
def splitOnChar (sep : Char) : List Char → List (List Char)
  | [] => [[]]
  | c :: rest =>
    match splitOnChar sep rest with
    | [] => [[c]]
    | h :: t => if c == sep then [] :: h :: t else (c :: h) :: t

/-- `s.lower()` in Python (ASCII case folding suffices for the labels used). -/
def pyLower (s : String) : String := String.mk (s.data.map Char.toLower)

/-- `needle` occurs at the start of `hay`. -/
def prefixMatch : List Char → List Char → Bool
  | [], _ => true
  | _ :: _, [] => false
  | a :: as, b :: bs => a == b && prefixMatch as bs

/-- `needle` occurs somewhere inside `hay` (Python `needle in hay` on strings). -/
def infixMatch (needle : List Char) : List Char → Bool
  | [] => needle.isEmpty
  | c :: rest => prefixMatch needle (c :: rest) || infixMatch needle rest

/-- Python substring test `needle in hay`. -/
def strContainsSub (hay needle : String) : Bool := infixMatch needle.data hay.data

/-- Python slicing `s[:n]` (by code points). -/
def strTake (s : String) (n : Nat) : String := String.mk (s.data.take n)

/-! ## JSON values as produced by `json.loads` -/

/-- A parsed JSON value: the possible results of Python's `json.loads`. -/
inductive Json where
  | null
  | bool (b : Bool)
  | num (q : ℚ)
  | str (s : String)
  | arr (elems : List Json)
  | obj (fields : List (String × Json))

/-- Python string equality against a decoded JSON value (only `str == str`
can ever hold between a string and a JSON-decoded element). -/
def Json.eqStr : Json → String → Bool
  | .str s, k => s == k
  | _, _ => false

/-- Python `d.get(k, default)` on the dictionary that `json.loads` builds:
with duplicate keys the last occurrence wins. -/
def dictGet (kvs : List (String × Json)) (k : String) (dflt : Json) : Json :=
  match kvs.reverse.find? (fun kv => kv.1 == k) with
  | some kv => kv.2
  | none => dflt

/-- Look a key up in a JSON value when it is an object (last binding wins). -/
def jsonGet (j : Json) (k : String) : Option Json :=
  match j with
  | .obj kvs => (kvs.reverse.find? (fun kv => kv.1 == k)).map (·.2)
  | _ => none

/-- Python `key in x` on a decoded JSON value: key lookup on dicts, element
membership on lists, substring test on strings, `TypeError` otherwise
(the error carries `str(e)`). -/
def pyContainsKey (j : Json) (k : String) : Except String Bool :=
  match j with
  | .obj kvs => .ok (kvs.any (fun kv => kv.1 == k))
  | .arr xs => .ok (xs.any (fun x => x.eqStr k))
  | .str s => .ok (strContainsSub s k)
  | _ => .error "argument of type is not iterable"

/-- `verifier.py` line 97: the keys the parsed payload must contain. -/
def REQUIRED_KEYS : List String := ["manipulation", "techniques", "disinfo", "explanation"]

/-- `all(key in final_result for key in required_keys)`: short-circuiting
conjunction of Python membership tests; a `TypeError` escapes. -/
def checkKeys (j : Json) : List String → Except String Bool
  | [] => .ok true
  | k :: ks =>
    match pyContainsKey j k with
    | .error e => .error e
    | .ok false => .ok false
    | .ok true => checkKeys j ks

/-! ## Backend call accounting

Each stage embedding also returns the list of external backend invocations
it performed (an invocation counts even when the call raised). -/

/-- One invocation of an external backend. -/
inductive BackendCall where
  | generation
  | scoring
  | search (query : String) (maxResults : Nat)
deriving DecidableEq, Repr

/-- Outcome of one generation-backend call in the verifier, seen after
`json.loads`: the call raised, the returned text failed to parse as JSON,
or it parsed to a JSON value. -/
inductive GenOutcome where
  | fail (err : String)
  | parseFail
  | parsed (j : Json)

/-! ## Verification stage (`nodes/verifier.py`) -/

/-- The fields of the graph state that `verifier` reads (lines 38-43). -/
structure VState where
  content : String
  content_id : String
  manipulation_probability : ℚ
  manipulation_techniques : List String
  narrative : String
  fact_check_results : String

/-- Python `format(x, ".3f")` on the probability, modelled on rationals:
three decimal places, rounding half away from zero (the tie-breaking rule
never matters below — the value is only embedded into explanation text). -/
def fmt3 (q : ℚ) : String :=
  let n : Int := ⌊q * 1000 + mkRat 1 2⌋
  let na := n.natAbs
  let fracDigits := toString (na % 1000)
  let pad := String.mk (List.replicate (3 - fracDigits.length) '0')
  (if n < 0 then "-" else "") ++ toString (na / 1000) ++ "." ++ pad ++ fracDigits

/-- Explanation built by the parse-failure fallback (line 109). -/
def parseFallbackText (p : ℚ) (narrative factCheck : String) : String :=
  "Аналіз завершено. Ймовірність маніпуляції: " ++ fmt3 p ++ ". "
    ++ narrative ++ " " ++ factCheck

/-- Explanation built by the backend-failure fallback (line 134). -/
def errorFallbackText (p : ℚ) (err : String) : String :=
  "Верифікація завершена з помилками. Ймовірність маніпуляції: " ++ fmt3 p
    ++ ". Помилка: " ++ err

/-- The manually rebuilt verdict used by both fallbacks (lines 103-110 and
128-135): `manipulation = probability > 0.15 and techniques non-empty`. -/
def fallbackVerdict (p : ℚ) (techs : List String) (expl : String) : Json :=
  .obj [("manipulation", .bool (decide (mkRat 15 100 < p) && !techs.isEmpty)),
        ("techniques", .arr (techs.map .str)),
        ("disinfo", .arr []),
        ("explanation", .str expl)]

/-- The fixed verdict returned for blank content (lines 46-51). -/
def NO_CONTENT_VERDICT : Json :=
  .obj [("manipulation", .bool false),
        ("techniques", .arr []),
        ("disinfo", .arr []),
        ("explanation", .str "Не надано контенту для аналізу")]

/-- The outer `try:` block of `verifier` (lines 70-123): an `Except.error`
is an exception reaching the outer handler.  The inner
`except (json.JSONDecodeError, ValueError)` is applied here: a parse
failure or missing keys produce the structural fallback, while a
`TypeError` from the membership test and a raising backend call escape. -/
def verifierBody (st : VState) (gen : GenOutcome) : Except String Json :=
  match gen with
  | .fail err => .error err
  | .parseFail =>
    .ok (fallbackVerdict st.manipulation_probability st.manipulation_techniques
      (parseFallbackText st.manipulation_probability st.narrative st.fact_check_results))
  | .parsed j =>
    match checkKeys j REQUIRED_KEYS with
    | .error e => .error e
    | .ok false =>
      .ok (fallbackVerdict st.manipulation_probability st.manipulation_techniques
        (parseFallbackText st.manipulation_probability st.narrative st.fact_check_results))
    | .ok true => .ok j

/-- The `verifier` node: blank-content short circuit, then the `try:` body
with the outer `except Exception` handler (lines 125-147), plus the list
of generation-backend invocations performed. -/
def verifierNode (st : VState) (gen : GenOutcome) : Json × List BackendCall :=
  if pyIsBlank st.content then (NO_CONTENT_VERDICT, [])
  else
    match verifierBody st gen with
    | .ok v => (v, [.generation])
    | .error e =>
      (fallbackVerdict st.manipulation_probability st.manipulation_techniques
        (errorFallbackText st.manipulation_probability e), [.generation])

/-! ## Verdict observations -/

/-- The `manipulation` field of a verdict, when it exists and is a boolean. -/
def boolField (j : Json) (k : String) : Option Bool :=
  match jsonGet j k with
  | some (.bool b) => some b
  | _ => none

/-- A field of a verdict, when it exists and is a JSON array. -/
def arrField (j : Json) (k : String) : Option (List Json) :=
  match jsonGet j k with
  | some (.arr xs) => some xs
  | _ => none

/-- A field of a verdict, when it exists and is a JSON string. -/
def strField (j : Json) (k : String) : Option String :=
  match jsonGet j k with
  | some (.str s) => some s
  | _ => none

/-- The claim-side reading of a well-typed verdict: a JSON object carrying a
boolean `manipulation`, array `techniques`, array `disinfo` and string
`explanation`. -/
def wellFormedVerdict (j : Json) : Bool :=
  (boolField j "manipulation").isSome && (arrField j "techniques").isSome
    && (arrField j "disinfo").isSome && (strField j "explanation").isSome

/-- The spec invariant on a verdict: `manipulation = true` only together
with a non-empty `techniques` or a non-empty `disinfo`. -/
def verdictConsistent (j : Json) : Bool :=
  !(boolField j "manipulation" == some true)
    || !((arrField j "techniques").getD []).isEmpty
    || !((arrField j "disinfo").getD []).isEmpty

/-! ## Scoring-backend classification stage
(`nodes/manipulation_classifier_binary.py`) -/

/-- One row of the transformers text-classification output: a labelled
score. -/
structure ClsResult where
  label : String
  score : ℚ
deriving DecidableEq, Repr

/-- Outcome of the scoring-backend call: the pipeline raised, or returned a
list of labelled scores. -/
inductive ScoreOutcome where
  | fail (err : String)
  | ok (results : List ClsResult)

/-- The model kind recorded in the `MODELS` table. -/
inductive ModelKind where
  | binary
  | multilabel
deriving DecidableEq, Repr

/-- One entry of the `MODELS` configuration table. -/
structure ModelConfig where
  kind : ModelKind
  defaultThreshold : ℚ
deriving DecidableEq, Repr

/-- The `MODELS` table (lines 8-19). -/
def MODELS : String → Option ModelConfig
  | "lapa-llm" => some ⟨.binary, mkRat 1 2⟩
  | "modern-bert" => some ⟨.multilabel, mkRat 15 100⟩
  | _ => none

/-- `LABEL_MAPPING.get(raw_label, raw_label)` (lines 22-28, 141): known
backend labels map into the technique vocabulary, unknown labels pass
through unchanged. -/
def labelMappingGet (l : String) : String :=
  if l == "LABEL_0" then "emotional_manipulation"
  else if l == "LABEL_1" then "fear_appeals"
  else if l == "LABEL_2" then "bandwagon_effect"
  else if l == "LABEL_3" then "selective_truth"
  else if l == "LABEL_4" then "cliche"
  else l

/-- The five backend labels present in `LABEL_MAPPING`. -/
def KNOWN_LABELS : List String := ["LABEL_0", "LABEL_1", "LABEL_2", "LABEL_3", "LABEL_4"]

/-- The output fields written by the scoring-backend classifier. -/
structure ClsOutput where
  is_manipulation : Bool
  manipulation_score : ℚ
  manipulation_probability : ℚ
  manipulation_techniques : List String
deriving DecidableEq, Repr

/-- The binary-kind score adjustment (lines 126-130): a label reading as a
"non-manipulative" class flips the score to `1 - raw`. -/
def polarityFlip (label : String) : Bool :=
  strContainsSub (pyLower label) "not" || strContainsSub (pyLower label) "non"
    || pyLower label == "0"

/-- The multilabel result loop (lines 136-144): accumulate techniques for
scores strictly above the threshold and track the maximum score. -/
def multilabelFold (threshold : ℚ) (rs : List ClsResult) : ℚ × List String :=
  rs.foldl
    (fun acc r =>
      (max acc.1 r.score,
       if threshold < r.score then acc.2 ++ [labelMappingGet r.label] else acc.2))
    (0, [])

/-- The classifier output returned on the error path (lines 186-192) and as
initial values. -/
def safeClsOutput : ClsOutput :=
  { is_manipulation := false, manipulation_score := 0, manipulation_probability := 0,
    manipulation_techniques := [] }

/-- The `manipulation_score` extracted from the backend results
(lines 116-153): first score with polarity correction for the binary kind,
loop-tracked maximum for the multilabel kind (0.0 when the result list is
empty, since the loop body then never runs). -/
def clsScore (kind : ModelKind) (threshold : ℚ) (results : List ClsResult) : ℚ :=
  match kind with
  | .binary =>
    match results with
    | [] => 0
    | r :: _ => if polarityFlip r.label then 1 - r.score else r.score
  | .multilabel => (multilabelFold threshold results).1

/-- The `manipulation_techniques` extracted from the backend results:
always empty for the binary kind, loop-accumulated for the multilabel
kind. -/
def clsTechniques (kind : ModelKind) (threshold : ℚ) (results : List ClsResult) :
    List String :=
  match kind with
  | .binary => []
  | .multilabel => (multilabelFold threshold results).2

/-- `manipulation_classifier_binary` (lines 57-192): threshold resolution,
blank-content short circuit, model dispatch, per-kind score extraction,
decision `score >= threshold`, and the `except` handler producing safe
defaults.  An unknown model key makes `get_classifier_pipeline` raise
before the backend is invoked. -/
def manipulation_classifier_binary (content : String) (modelKey : String)
    (thresholdOverride : Option ℚ) (backend : ScoreOutcome) :
    ClsOutput × List BackendCall :=
  let threshold := thresholdOverride.getD
    (match MODELS modelKey with
     | some cfg => cfg.defaultThreshold
     | none => mkRat 1 2)
  if pyIsBlank content then (safeClsOutput, [])
  else
    match MODELS modelKey with
    | none => (safeClsOutput, [])
    | some cfg =>
      match backend with
      | .fail _ => (safeClsOutput, [.scoring])
      | .ok results =>
        ({ is_manipulation := decide (threshold ≤ clsScore cfg.kind threshold results),
           manipulation_score := clsScore cfg.kind threshold results,
           manipulation_probability := clsScore cfg.kind threshold results,
           manipulation_techniques := clsTechniques cfg.kind threshold results },
         [.scoring])

/-! ## Prompt-based classification stage (`nodes/manipulation_classifier.py`) -/

/-- The technique vocabulary
(`prompts/manipulation_classifier.py`, `VALID_TECHNIQUES`). -/
def VALID_TECHNIQUES : List String :=
  ["emotional_manipulation", "fear_appeals", "bandwagon_effect",
   "selective_truth", "cliche"]

/-- The prompt-based decision threshold (line 17). -/
def PROMPT_THRESHOLD : ℚ := mkRat 1 2

/-- Python `float(x)` on a JSON-decoded value: numbers and booleans convert
(`float(True) == 1.0`); anything else raises.  (Numeric-literal strings
would also convert in Python; that case is not modelled — it only moves a
payload between the parsed and fallback paths, both of which are covered
by every property proved below.) -/
def pyFloat : Json → Except String ℚ
  | .num q => .ok q
  | .bool b => .ok (if b then 1 else 0)
  | _ => .error "could not convert to float"

/-- Lines 100-104: keep only payload entries that are strings belonging to
the fixed vocabulary (Python `tech in VALID_TECHNIQUES`; non-string
entries never compare equal to a vocabulary string). -/
def filterTechs (xs : List Json) : List String :=
  xs.filterMap
    (fun x => match x with
      | .str s => if VALID_TECHNIQUES.contains s then some s else none
      | _ => none)

/-- The parsed-payload handling of `manipulation_classifier` (lines 89-108):
clamp the probability, keep only vocabulary techniques, and clear the
techniques below the 0.5 threshold.  Every failure inside the stage —
raised backend call, JSON parse error, non-dict payload, non-float
probability — degrades to `(0.0, [])`. -/
def promptClassifierResult (gen : GenOutcome) : ℚ × List String :=
  match gen with
  | .fail _ => (0, [])
  | .parseFail => (0, [])
  | .parsed j =>
    match j with
    | .obj kvs =>
      match pyFloat (dictGet kvs "manipulation_probability" (.num 0)) with
      | .error _ => (0, [])
      | .ok p =>
        let p := max 0 (min 1 p)
        let rawTechs :=
          match dictGet kvs "manipulation_techniques" (.arr []) with
          | .arr xs => xs
          | _ => []
        (p, if p < PROMPT_THRESHOLD then [] else filterTechs rawTechs)
    | _ => (0, [])

/-- `manipulation_classifier` (lines 29-150): blank-content short circuit,
one generation call, parsed-payload handling, total fallback to
`(0.0, [])`. -/
def manipulation_classifier (content : String) (gen : GenOutcome) :
    (ℚ × List String) × List BackendCall :=
  if pyIsBlank content then ((0, []), [])
  else (promptClassifierResult gen, [.generation])

/-! ## Fact-check stage (`nodes/fact_checker.py`) -/

/-- A search result row `{url, snippet}`. -/
structure SearchResult where
  url : String
  snippet : String
deriving DecidableEq, Repr

/-- Outcome of one plain generation call: raised, or returned text. -/
inductive TextOutcome where
  | fail (err : String)
  | ok (text : String)

/-- Outcome of one Perplexity completion inside `perform_web_search`: any
exception (missing key included), or message content plus citations. -/
inductive PerplexityOutcome where
  | fail (err : String)
  | ok (content : String) (citations : List String)

/-- `perform_web_search` (lines 27-95): citations capped at `num_results`,
single content-row fallback when there are none, empty list on any
error. -/
def performWebSearch (numResults : Nat) (px : PerplexityOutcome) :
    List SearchResult :=
  match px with
  | .fail _ => []
  | .ok content citations =>
    match citations with
    | _ :: _ =>
      (citations.take numResults).map (fun c => ⟨c, strTake content 200⟩)
    | [] =>
      if content == "" then [] else [⟨"perplexity_search", strTake content 500⟩]

/-- Line 162: `[q.strip() for q in query_text.split('\n') if q.strip()]`. -/
def parseQueries (text : String) : List String :=
  ((((splitOnChar '\n' text.data).map String.mk).filter
    (fun q => !pyIsBlank q)).map pyStrip)

/-- The cache configuration carried in the state (lines 119-121). -/
structure FCConfig where
  useCache : Bool
  cachedQueries : Option (List String)
  cachedResults : Option (List SearchResult)

/-- The fact-check stage's backend behaviours: the query-generation call,
the Perplexity completion per query, and the synthesis call. -/
structure FCBackends where
  queryGen : TextOutcome
  perplexity : String → PerplexityOutcome
  synthesis : TextOutcome

/-- The fields returned by `fact_checker`. -/
structure FCOutput where
  search_queries : List String
  search_results : List SearchResult
  fact_check_results : String
deriving DecidableEq, Repr

/-- The error-path output of `fact_checker` (lines 214-218). -/
def fcErrorOutput (err : String) : FCOutput :=
  ⟨[], [], "Перевірка фактів не вдалася через помилку: " ++ err⟩

/-- The blank-content output of `fact_checker` (lines 131-135). -/
def fcNoContentOutput : FCOutput :=
  ⟨[], [], "Немає контенту для перевірки фактів"⟩

/-- The `try:` body of `fact_checker` (lines 140-204) together with the
backend calls it performs; `Except.error` is an exception reaching the
`except` handler.  `perform_web_search` never raises. -/
def factCheckerBody (cfg : FCConfig) (b : FCBackends) :
    Except String (FCOutput × List BackendCall) × List BackendCall :=
  match cfg.useCache, cfg.cachedQueries, cfg.cachedResults with
  | true, some qs, some rs =>
    (match b.synthesis with
     | .fail e => .error e
     | .ok t => .ok (⟨qs, rs, t⟩, [.generation]),
     [.generation])
  | _, _, _ =>
    match b.queryGen with
    | .fail e => (.error e, [.generation])
    | .ok text =>
      let queries := parseQueries text
      let searched := queries.take 3
      let results := (searched.map (fun q => performWebSearch 3 (b.perplexity q))).flatten
      let calls :=
        [BackendCall.generation] ++ searched.map (fun q => BackendCall.search q 3)
          ++ [BackendCall.generation]
      (match b.synthesis with
       | .fail e => .error e
       | .ok t => .ok (⟨queries, results, t⟩, calls),
       calls)

/-- `fact_checker` (lines 97-218): blank-content short circuit, cached or
live evidence gathering, synthesis, and the `except` handler degrading the
stage to empty queries/results with an error marker. -/
def fact_checker (content : String) (cfg : FCConfig) (b : FCBackends) :
    FCOutput × List BackendCall :=
  if pyIsBlank content then (fcNoContentOutput, [])
  else
    match factCheckerBody cfg b with
    | (.ok (out, calls), _) => (out, calls)
    | (.error e, calls) => (fcErrorOutput e, calls)

/-! ## Narrative stage (`nodes/narrative_extractor.py`) -/

/-- `narrative_extractor` (lines 25-99): blank content gives an empty
narrative with no backend call; a raised generation call gives the fixed
failure narrative embedding the error. -/
def narrative_extractor (content : String) (gen : TextOutcome) :
    String × List BackendCall :=
  if pyIsBlank content then ("", [])
  else
    match gen with
    | .ok t => (t, [.generation])
    | .fail e => ("Неможливо витягти наратив через помилку: " ++ e, [.generation])

/-! ## Pipeline wiring (`graph.py`) -/

/-- The per-run configuration the caller provides next to the content. -/
structure PipelineInput where
  content : String
  content_id : String
  useBinaryClassifier : Bool
  modelKey : String
  thresholdOverride : Option ℚ
  fcConfig : FCConfig

/-- The backend behaviours of one whole run. -/
structure PipelineBackends where
  scoring : ScoreOutcome
  classifierGen : GenOutcome
  narrativeGen : TextOutcome
  fc : FCBackends
  verifierGen : GenOutcome

/-- The classification entry node as wired by `create_graph` (lines 63-67):
the scoring-backend variant by default, the prompt-based variant
otherwise; both populate probability and techniques. -/
def classifierStage (inp : PipelineInput) (b : PipelineBackends) :
    ℚ × List String :=
  if inp.useBinaryClassifier then
    let out := (manipulation_classifier_binary inp.content inp.modelKey
      inp.thresholdOverride b.scoring).1
    (out.manipulation_probability, out.manipulation_techniques)
  else
    (manipulation_classifier inp.content b.classifierGen).1

/-- One run of the compiled graph (`create_graph` plus
`invoke_with_logging`, lines 45-135): classification and fact-check fan
out from the start, narrative follows classification, and the verifier
merges all three branches.  An `Except.error` would be an exception
propagating out of `run`; each stage is total, so none ever does. -/
def runPipeline (inp : PipelineInput) (b : PipelineBackends) :
    Except String Json := do
  let (prob, techs) := classifierStage inp b
  let fcOut := (fact_checker inp.content inp.fcConfig b.fc).1
  let narr := (narrative_extractor inp.content b.narrativeGen).1
  let st : VState :=
    { content := inp.content, content_id := inp.content_id,
      manipulation_probability := prob, manipulation_techniques := techs,
      narrative := narr, fact_check_results := fcOut.fact_check_results }
  pure (verifierNode st b.verifierGen).1

/-- A run in which every backend call raises. -/
def allFailBackends (eScore eCls eNarr eQuery ePx eSyn eVer : String) :
    PipelineBackends :=
  { scoring := .fail eScore, classifierGen := .fail eCls,
    narrativeGen := .fail eNarr,
    fc := ⟨.fail eQuery, fun _ => .fail ePx, .fail eSyn⟩,
    verifierGen := .fail eVer }

/-! ## Inputs and observations used by individual claims -/

/-- Recognizes a Search Backend invocation in a call list. -/
def isSearchCall : BackendCall → Bool
  | .search _ _ => true
  | _ => false

/-- Claim C1 counterexample input: a payload that parses and passes the
key-presence check while carrying a non-boolean `manipulation` field. -/
def mistypedPayload : Json :=
  .obj [("manipulation", .str "так"), ("techniques", .arr []),
        ("disinfo", .arr []), ("explanation", .str "пояснення")]

/-- Claim C2 counterexample input: a payload that parses and passes the
key-presence check with `manipulation = true` while both `techniques` and
`disinfo` are empty. -/
def inconsistentPayload : Json :=
  .obj [("manipulation", .bool true), ("techniques", .arr []),
        ("disinfo", .arr []), ("explanation", .str "пояснення")]

/-- The fallback decision formula as claim C7 words it: upstream
probability greater than OR EQUAL to the 0.15 threshold, and techniques
non-empty.  (Spec-side definition, for comparison with the code's strict
comparison.) -/
def claimedFallbackDecision (p : ℚ) (techs : List String) : Bool :=
  decide (mkRat 15 100 ≤ p) && !techs.isEmpty

/-! ## Helper lemmas about the verifier's verdicts -/

lemma wellFormedVerdict_fallback (p : ℚ) (techs : List String) (e : String) :
    wellFormedVerdict (fallbackVerdict p techs e) = true := rfl

lemma wellFormedVerdict_noContent : wellFormedVerdict NO_CONTENT_VERDICT = true := rfl

lemma boolField_fallback (p : ℚ) (techs : List String) (e : String) :
    boolField (fallbackVerdict p techs e) "manipulation"
      = some (decide (mkRat 15 100 < p) && !techs.isEmpty) := rfl

lemma arrField_fallback_techs (p : ℚ) (techs : List String) (e : String) :
    arrField (fallbackVerdict p techs e) "techniques"
      = some (techs.map Json.str) := rfl

lemma arrField_fallback_disinfo (p : ℚ) (techs : List String) (e : String) :
    arrField (fallbackVerdict p techs e) "disinfo" = some [] := rfl

lemma strField_fallback (p : ℚ) (techs : List String) (e : String) :
    strField (fallbackVerdict p techs e) "explanation" = some e := rfl

lemma verdictConsistent_fallback (p : ℚ) (techs : List String) (e : String) :
    verdictConsistent (fallbackVerdict p techs e) = true := by
  unfold verdictConsistent
  rw [boolField_fallback, arrField_fallback_techs, arrField_fallback_disinfo]
  rcases techs with _ | ⟨a, as⟩
  · simp
  · simp

lemma verdictConsistent_noContent : verdictConsistent NO_CONTENT_VERDICT = true := rfl

/-! ## C1 and C2: the verifier's output shape and invariant -/

/-- Claim C1, counterexample: with content present and the generation
backend returning the mistyped payload, the verification stage's final
result does not contain a boolean `manipulation`, list `techniques`, list
`disinfo` and string `explanation` — the claim as stated is false. -/
theorem verifier_four_fields_cex :
    wellFormedVerdict
      (verifierNode ⟨"Новина", "id", 0, [], "", ""⟩
        (GenOutcome.parsed mistypedPayload)).1 = false := by
  decide

/-- Claim C1 (amended): for every input and backend behaviour the
verification stage returns a final result, and that result either carries
all four correctly-typed verdict fields (the empty-content path and both
fallback paths) or is the backend payload returned verbatim after passing
the key-presence check — presence and typing of the four fields is not
re-checked on that verbatim path. -/
theorem verifier_wellformed_or_verbatim (st : VState) (gen : GenOutcome) :
    wellFormedVerdict (verifierNode st gen).1 = true ∨
    ∃ j, gen = GenOutcome.parsed j ∧ checkKeys j REQUIRED_KEYS = Except.ok true ∧
      (verifierNode st gen).1 = j := by
  by_cases hb : pyIsBlank st.content = true
  · left
    simp [verifierNode, hb, wellFormedVerdict_noContent]
  · cases gen with
    | fail e =>
      left
      simp [verifierNode, verifierBody, hb, wellFormedVerdict_fallback]
    | parseFail =>
      left
      simp [verifierNode, verifierBody, hb, wellFormedVerdict_fallback]
    | parsed j =>
      rcases hk : checkKeys j REQUIRED_KEYS with e | b
      · left
        simp [verifierNode, verifierBody, hb, hk, wellFormedVerdict_fallback]
      · cases b
        · left
          simp [verifierNode, verifierBody, hb, hk, wellFormedVerdict_fallback]
        · right
          exact ⟨j, rfl, hk, by simp [verifierNode, verifierBody, hb, hk]⟩

/-- Claim C2, counterexample: on the parsed-payload path the verification
stage performs no consistency check, so a final result with
`manipulation = true` and both `techniques` and `disinfo` empty is
returned — the claim as stated is false. -/
theorem verifier_invariant_cex :
    verdictConsistent
      (verifierNode ⟨"Новина", "id", 0, [], "", ""⟩
        (GenOutcome.parsed inconsistentPayload)).1 = false := by
  decide

/-- Claim C2 (amended): on every path except the verbatim parsed-payload
path — i.e. on the empty-content path, the parse/validation-failure
fallback and the backend-failure fallback — the final result satisfies the
invariant: `manipulation = true` implies `techniques` non-empty or
`disinfo` non-empty. -/
theorem verifier_invariant_nonverbatim (st : VState) (gen : GenOutcome)
    (h : ∀ j, gen = GenOutcome.parsed j → checkKeys j REQUIRED_KEYS ≠ Except.ok true) :
    verdictConsistent (verifierNode st gen).1 = true := by
  by_cases hb : pyIsBlank st.content = true
  · simp [verifierNode, hb, verdictConsistent_noContent]
  · cases gen with
    | fail e =>
      simp [verifierNode, verifierBody, hb, verdictConsistent_fallback]
    | parseFail =>
      simp [verifierNode, verifierBody, hb, verdictConsistent_fallback]
    | parsed j =>
      rcases hk : checkKeys j REQUIRED_KEYS with e | b
      · simp [verifierNode, verifierBody, hb, hk, verdictConsistent_fallback]
      · cases b
        · simp [verifierNode, verifierBody, hb, hk, verdictConsistent_fallback]
        · exact absurd hk (h j rfl)

/-- Claim C2 witness: the amended theorem applied on the backend-failure
path at concrete input. -/
theorem verifier_invariant_nonverbatim_witness :
    verdictConsistent
      (verifierNode ⟨"Новина", "id", mkRat 6 10, ["fear_appeals"], "", ""⟩
        (GenOutcome.fail "boom")).1 = true :=
  verifier_invariant_nonverbatim _ _ (fun _ hj => nomatch hj)

/-! ## C7: the deterministic fallback formula -/

/-- Claim C7, counterexample: at upstream probability exactly 0.15 with a
non-empty technique list, the claimed formula (`probability ≥ threshold`)
decides true but the code's fallback (strict `probability > 0.15`,
`verifier.py` lines 103 and 128) returns `manipulation = false`. -/
theorem verifier_fallback_formula_cex :
    claimedFallbackDecision (mkRat 15 100) ["fear_appeals"] = true ∧
    boolField
      (verifierNode ⟨"Новина", "id", mkRat 15 100, ["fear_appeals"], "", ""⟩
        (GenOutcome.fail "boom")).1 "manipulation" = some false := by
  decide

/-- Claim C7 (amended): when the verification stage's backend call fails or
its payload cannot be parsed or validated, the verdict is rebuilt
deterministically from upstream signals with
`manipulation = (probability > 0.15) AND (techniques non-empty)` — strict
comparison — `techniques` equal to the upstream techniques, `disinfo`
empty, and the explanation synthesized from the upstream text, with the
error text included on backend failure. -/
theorem verifier_fallback_formula (st : VState) (err : String)
    (hc : pyIsBlank st.content = false) :
    (boolField (verifierNode st (GenOutcome.fail err)).1 "manipulation"
      = some (decide (mkRat 15 100 < st.manipulation_probability)
          && !st.manipulation_techniques.isEmpty)) ∧
    (arrField (verifierNode st (GenOutcome.fail err)).1 "techniques"
      = some (st.manipulation_techniques.map Json.str)) ∧
    (arrField (verifierNode st (GenOutcome.fail err)).1 "disinfo" = some []) ∧
    (strField (verifierNode st (GenOutcome.fail err)).1 "explanation"
      = some (errorFallbackText st.manipulation_probability err)) ∧
    (∃ pre, errorFallbackText st.manipulation_probability err = pre ++ err) ∧
    (boolField (verifierNode st GenOutcome.parseFail).1 "manipulation"
      = some (decide (mkRat 15 100 < st.manipulation_probability)
          && !st.manipulation_techniques.isEmpty)) ∧
    (arrField (verifierNode st GenOutcome.parseFail).1 "techniques"
      = some (st.manipulation_techniques.map Json.str)) ∧
    (arrField (verifierNode st GenOutcome.parseFail).1 "disinfo" = some []) ∧
    (strField (verifierNode st GenOutcome.parseFail).1 "explanation"
      = some (parseFallbackText st.manipulation_probability st.narrative
          st.fact_check_results)) := by
  have hfail : (verifierNode st (GenOutcome.fail err)).1
      = fallbackVerdict st.manipulation_probability st.manipulation_techniques
          (errorFallbackText st.manipulation_probability err) := by
    simp [verifierNode, verifierBody, hc]
  have hparse : (verifierNode st GenOutcome.parseFail).1
      = fallbackVerdict st.manipulation_probability st.manipulation_techniques
          (parseFallbackText st.manipulation_probability st.narrative
            st.fact_check_results) := by
    simp [verifierNode, verifierBody, hc]
  refine ⟨?_, ?_, ?_, ?_, ?_, ?_, ?_, ?_, ?_⟩
  · rw [hfail, boolField_fallback]
  · rw [hfail, arrField_fallback_techs]
  · rw [hfail, arrField_fallback_disinfo]
  · rw [hfail, strField_fallback]
  · exact ⟨"Верифікація завершена з помилками. Ймовірність маніпуляції: "
      ++ fmt3 st.manipulation_probability ++ ". Помилка: ", rfl⟩
  · rw [hparse, boolField_fallback]
  · rw [hparse, arrField_fallback_techs]
  · rw [hparse, arrField_fallback_disinfo]
  · rw [hparse, strField_fallback]

/-- Claim C7 witness: with upstream probability 0.6 and techniques
`["fear_appeals"]`, the backend-failure fallback verdict has
`manipulation = true`. -/
theorem verifier_fallback_formula_witness :
    boolField
      (verifierNode ⟨"Новина", "id", mkRat 6 10, ["fear_appeals"], "", ""⟩
        (GenOutcome.fail "boom")).1 "manipulation" = some true := by
  have h := verifier_fallback_formula
    ⟨"Новина", "id", mkRat 6 10, ["fear_appeals"], "", ""⟩ "boom" (by decide)
  rw [h.1]
  decide

/-! ## C3: empty-content short circuits -/

/-- Claim C3: when the content is empty after trimming, every stage returns
its documented empty-path output — the scoring-backend classification
stage returns `is_manipulation = false`, score 0.0, probability 0.0 and no
techniques (and the prompt-based variant returns probability 0.0 with no
techniques), the narrative stage returns an empty narrative, the
fact-check stage returns empty queries, empty results and the no-content
marker, and the verification stage returns the fixed no-content verdict —
and no generation, scoring or search backend is invoked (every call list
is empty). -/
theorem empty_content_short_circuit (content : String)
    (h : pyIsBlank content = true) (modelKey : String) (thOv : Option ℚ)
    (sb : ScoreOutcome) (genC : GenOutcome) (ng : TextOutcome) (cfg : FCConfig)
    (fb : FCBackends) (st : VState) (hst : pyIsBlank st.content = true)
    (vg : GenOutcome) :
    manipulation_classifier_binary content modelKey thOv sb = (safeClsOutput, []) ∧
    manipulation_classifier content genC = ((0, []), []) ∧
    narrative_extractor content ng = ("", []) ∧
    fact_checker content cfg fb = (fcNoContentOutput, []) ∧
    verifierNode st vg = (NO_CONTENT_VERDICT, []) := by
  refine ⟨?_, ?_, ?_, ?_, ?_⟩
  · simp [manipulation_classifier_binary, h]
  · simp [manipulation_classifier, h]
  · simp [narrative_extractor, h]
  · simp [fact_checker, h]
  · simp [verifierNode, hst]

/-- Claim C3 witness: the short circuits at a concrete whitespace-only
content, with every backend set to raise. -/
theorem empty_content_short_circuit_witness :
    manipulation_classifier_binary "  " "lapa-llm" none (ScoreOutcome.fail "e")
      = (safeClsOutput, []) ∧
    manipulation_classifier "  " (GenOutcome.fail "e") = ((0, []), []) ∧
    narrative_extractor "  " (TextOutcome.fail "e") = ("", []) ∧
    fact_checker "  " ⟨false, none, none⟩
      ⟨TextOutcome.fail "e", fun _ => PerplexityOutcome.fail "e", TextOutcome.fail "e"⟩
      = (fcNoContentOutput, []) ∧
    verifierNode ⟨"  ", "id", 0, [], "", ""⟩ (GenOutcome.fail "e")
      = (NO_CONTENT_VERDICT, []) :=
  empty_content_short_circuit "  " (by decide) "lapa-llm" none _ _ _ _ _ _
    (by decide) _

/-! ## C4: the decision is antitone in the threshold -/

lemma multilabelFold_fst_aux (t : ℚ) :
    ∀ (rs : List ClsResult) (a : ℚ) (l : List String),
      (rs.foldl
        (fun acc r =>
          (max acc.1 r.score,
           if t < r.score then acc.2 ++ [labelMappingGet r.label] else acc.2))
        (a, l)).1
      = rs.foldl (fun m r => max m r.score) a
  | [], _, _ => rfl
  | _ :: rs, _, _ => by
    simp only [List.foldl_cons]
    exact multilabelFold_fst_aux t rs _ _

/-- The tracked maximum score does not depend on the threshold. -/
lemma multilabelFold_fst (t : ℚ) (rs : List ClsResult) :
    (multilabelFold t rs).1 = rs.foldl (fun m r => max m r.score) 0 :=
  multilabelFold_fst_aux t rs 0 []

/-- The extracted score is the same under any threshold. -/
lemma clsScore_threshold_indep (kind : ModelKind) (t1 t2 : ℚ)
    (rs : List ClsResult) : clsScore kind t1 rs = clsScore kind t2 rs := by
  cases kind
  · rfl
  · show (multilabelFold t1 rs).1 = (multilabelFold t2 rs).1
    rw [multilabelFold_fst, multilabelFold_fst]

/-- Claim C4: for a fixed backend behaviour on the same content, the
`is_manipulation` decision of the scoring-backend classification stage is
antitone in the decision threshold — if the decision is false at `t1 ≤ t2`
it is also false at `t2`. -/
theorem classifier_decision_antitone (content modelKey : String)
    (backend : ScoreOutcome) (t1 t2 : ℚ) (h12 : t1 ≤ t2)
    (h1 : (manipulation_classifier_binary content modelKey (some t1)
      backend).1.is_manipulation = false) :
    (manipulation_classifier_binary content modelKey (some t2)
      backend).1.is_manipulation = false := by
  by_cases hb : pyIsBlank content = true
  · simp [manipulation_classifier_binary, hb, safeClsOutput]
  · rcases hm : MODELS modelKey with _ | cfg
    · simp [manipulation_classifier_binary, hb, hm, safeClsOutput]
    · cases backend with
      | fail e =>
        simp [manipulation_classifier_binary, hb, hm, safeClsOutput]
      | ok rs =>
        simp [manipulation_classifier_binary, hb, hm] at h1 ⊢
        rw [clsScore_threshold_indep cfg.kind t2 t1]
        exact lt_of_lt_of_le h1 h12

/-- Claim C4 witness: score 0.3 from the binary-kind backend is below both
thresholds 0.5 and 0.75. -/
theorem classifier_decision_antitone_witness :
    (mkRat 1 2 : ℚ) ≤ mkRat 3 4 ∧
    (manipulation_classifier_binary "Текст" "lapa-llm" (some (mkRat 3 4))
      (ScoreOutcome.ok [⟨"manip", mkRat 3 10⟩])).1.is_manipulation = false :=
  ⟨by decide,
   classifier_decision_antitone "Текст" "lapa-llm" _ (mkRat 1 2) (mkRat 3 4)
     (by decide) (by decide)⟩

/-! ## C5: technique vocabulary filtering -/

/-- Claim C5, counterexample: the scoring-backend multilabel classifier
passes an unknown backend label (`LABEL_9`) through
`LABEL_MAPPING.get(raw_label, raw_label)` verbatim into
`manipulation_techniques`, so a label outside the fixed vocabulary is
surfaced — the claim as stated is false. -/
theorem technique_vocabulary_cex :
    (manipulation_classifier_binary "Текст" "modern-bert" none
      (ScoreOutcome.ok [⟨"LABEL_9", mkRat 9 10⟩])).1.manipulation_techniques
      = ["LABEL_9"] ∧
    VALID_TECHNIQUES.contains "LABEL_9" = false := by
  decide

lemma filterTechs_vocab (xs : List Json) (tech : String)
    (h : tech ∈ filterTechs xs) : VALID_TECHNIQUES.contains tech = true := by
  unfold filterTechs at h
  rcases List.mem_filterMap.1 h with ⟨x, _, hx⟩
  rcases x with _ | b | q | s | es | kvs
  all_goals simp at hx
  rcases hx with ⟨hc, hs⟩
  rw [← hs]
  simpa using hc

lemma promptClassifier_vocab (content : String) (gen : GenOutcome)
    (tech : String) (h : tech ∈ (manipulation_classifier content gen).1.2) :
    VALID_TECHNIQUES.contains tech = true := by
  unfold manipulation_classifier at h
  by_cases hb : pyIsBlank content = true
  · simp [hb] at h
  · simp only [hb] at h
    rcases gen with e | _ | j
    · simp [promptClassifierResult] at h
    · simp [promptClassifierResult] at h
    · rcases j with _ | b | q | s | es | kvs
      · simp [promptClassifierResult] at h
      · simp [promptClassifierResult] at h
      · simp [promptClassifierResult] at h
      · simp [promptClassifierResult] at h
      · simp [promptClassifierResult] at h
      · simp only [promptClassifierResult] at h
        rcases hf : pyFloat (dictGet kvs "manipulation_probability" (.num 0))
          with e | p
        · simp [hf] at h
        · simp only [hf] at h
          by_cases hp : max 0 (min 1 p) < PROMPT_THRESHOLD
          · simp [hp] at h
          · simp only [if_neg hp] at h
            exact filterTechs_vocab _ tech h

lemma multilabelFold_snd_aux (t : ℚ) :
    ∀ (rs : List ClsResult) (a : ℚ) (l : List String) (tech : String),
      tech ∈ (rs.foldl
        (fun acc r =>
          (max acc.1 r.score,
           if t < r.score then acc.2 ++ [labelMappingGet r.label] else acc.2))
        (a, l)).2 →
      tech ∈ l ∨ ∃ r ∈ rs, tech = labelMappingGet r.label
  | [], _, _, _ => fun h => Or.inl h
  | r :: rs, a, l, tech => by
    intro h
    simp only [List.foldl_cons] at h
    rcases multilabelFold_snd_aux t rs _ _ tech h with hl | ⟨r', hr', he⟩
    · by_cases hc : t < r.score
      · rw [if_pos hc] at hl
        rcases List.mem_append.1 hl with h1 | h2
        · exact Or.inl h1
        · exact Or.inr ⟨r, List.mem_cons_self r rs, by simpa using h2⟩
      · rw [if_neg hc] at hl
        exact Or.inl hl
    · exact Or.inr ⟨r', List.mem_cons_of_mem r hr', he⟩

lemma labelMappingGet_known :
    ∀ l ∈ KNOWN_LABELS, VALID_TECHNIQUES.contains (labelMappingGet l) = true := by
  decide

lemma multilabel_vocab (content : String) (thOv : Option ℚ)
    (rs : List ClsResult) (hlab : ∀ r ∈ rs, r.label ∈ KNOWN_LABELS)
    (tech : String)
    (h : tech ∈ (manipulation_classifier_binary content "modern-bert" thOv
      (ScoreOutcome.ok rs)).1.manipulation_techniques) :
    VALID_TECHNIQUES.contains tech = true := by
  have hm : MODELS "modern-bert" = some ⟨ModelKind.multilabel, mkRat 15 100⟩ := rfl
  by_cases hb : pyIsBlank content = true
  · simp [manipulation_classifier_binary, hb, safeClsOutput] at h
  · simp only [manipulation_classifier_binary, hm, hb] at h
    simp [clsTechniques, multilabelFold] at h
    rcases multilabelFold_snd_aux _ rs 0 [] tech h with hl | ⟨r, hr, he⟩
    · simp at hl
    · rw [he]
      exact labelMappingGet_known r.label (hlab r hr)

/-- Claim C5 (amended): the prompt-based classifier filters every payload
label to the fixed vocabulary, so unknown labels are dropped; the
scoring-backend multilabel classifier keeps its techniques inside the
vocabulary only when every backend label is one of the known
`LABEL_0`–`LABEL_4` — an unknown backend label is passed through verbatim,
not dropped. -/
theorem technique_vocabulary_amended :
    (∀ (content : String) (gen : GenOutcome) (tech : String),
      tech ∈ (manipulation_classifier content gen).1.2 →
      VALID_TECHNIQUES.contains tech = true) ∧
    (∀ (content : String) (thOv : Option ℚ) (rs : List ClsResult),
      (∀ r ∈ rs, r.label ∈ KNOWN_LABELS) →
      ∀ tech ∈ (manipulation_classifier_binary content "modern-bert" thOv
        (ScoreOutcome.ok rs)).1.manipulation_techniques,
      VALID_TECHNIQUES.contains tech = true) :=
  ⟨promptClassifier_vocab,
   fun content thOv rs hlab tech h => multilabel_vocab content thOv rs hlab tech h⟩

/-- Claim C5 witness: a known backend label above threshold yields a
vocabulary technique. -/
theorem technique_vocabulary_witness :
    VALID_TECHNIQUES.contains "fear_appeals" = true :=
  technique_vocabulary_amended.2 "Текст" none [⟨"LABEL_1", mkRat 9 10⟩]
    (by decide) "fear_appeals" (by decide)

/-! ## C6: the search cache -/

/-- Claim C6, counterexample: with the cache configured and populated, a
failing synthesis call degrades the whole stage — the returned
`searchQueries`/`searchResults` are empty rather than the cached pair, so
two runs differing only in the generation backend can differ — the claim
as stated is false. -/
theorem fact_checker_cache_cex :
    (fact_checker "Новина" ⟨true, some ["q"], some [⟨"u", "s"⟩]⟩
      ⟨TextOutcome.ok "q", fun _ => PerplexityOutcome.fail "e",
        TextOutcome.fail "boom"⟩).1.search_queries ≠ ["q"] ∧
    (fact_checker "Новина" ⟨true, some ["q"], some [⟨"u", "s"⟩]⟩
      ⟨TextOutcome.ok "q", fun _ => PerplexityOutcome.fail "e",
        TextOutcome.fail "boom"⟩).1.search_results ≠ [⟨"u", "s"⟩] := by
  decide

/-- Claim C6 (amended): on the cached path the Search Backend is never
invoked — the stage performs exactly one generation call (the synthesis) —
and whenever that synthesis call succeeds the returned
`searchQueries`/`searchResults` equal the cached pair verbatim, so two
such runs agree regardless of the generation backend; a failing synthesis
instead degrades the stage to empty queries and results. -/
theorem fact_checker_cache_amended (content : String) (qs : List String)
    (rs : List SearchResult) (cfg : FCConfig) (b : FCBackends)
    (hc : pyIsBlank content = false) (hu : cfg.useCache = true)
    (hq : cfg.cachedQueries = some qs) (hr : cfg.cachedResults = some rs) :
    (fact_checker content cfg b).2 = [BackendCall.generation] ∧
    (∀ t, b.synthesis = TextOutcome.ok t →
      (fact_checker content cfg b).1 = ⟨qs, rs, t⟩) := by
  constructor
  · rcases hs : b.synthesis with e | t
    · simp [fact_checker, factCheckerBody, hc, hu, hq, hr, hs]
    · simp [fact_checker, factCheckerBody, hc, hu, hq, hr, hs]
  · intro t ht
    simp [fact_checker, factCheckerBody, hc, hu, hq, hr, ht]

/-- Claim C6 witness: the amended theorem at a concrete cached run whose
synthesis succeeds. -/
theorem fact_checker_cache_witness :
    (fact_checker "Новина" ⟨true, some ["q"], some [⟨"u", "s"⟩]⟩
      ⟨TextOutcome.fail "e", fun _ => PerplexityOutcome.fail "e",
        TextOutcome.ok "звіт"⟩).1 = ⟨["q"], [⟨"u", "s"⟩], "звіт"⟩ :=
  (fact_checker_cache_amended "Новина" ["q"] [⟨"u", "s"⟩] _ _
    (by decide) rfl rfl rfl).2 "звіт" rfl

/-! ## C9: bounded evidence gathering -/

lemma performWebSearch_le_three (px : PerplexityOutcome) :
    (performWebSearch 3 px).length ≤ 3 := by
  rcases px with e | ⟨c, cits⟩
  · simp [performWebSearch]
  · rcases cits with _ | ⟨u, us⟩
    · by_cases hc : c == ""
      · simp [performWebSearch, hc]
      · simp [performWebSearch, hc]
    · simp only [performWebSearch, List.length_map, List.length_take]
      omega

lemma flatten_length_le_three_mul :
    ∀ (L : List (List SearchResult)), (∀ l ∈ L, l.length ≤ 3) →
      L.flatten.length ≤ 3 * L.length
  | [], _ => by simp
  | l :: L, h => by
    simp only [List.flatten_cons, List.length_append, List.length_cons]
    have h1 := h l (List.mem_cons_self l L)
    have h2 := flatten_length_le_three_mul L
      (fun x hx => h x (List.mem_cons_of_mem l hx))
    omega

/-- Claim C9, counterexample: when the synthesis call fails after a search
produced a result, the returned `searchResults` is empty and therefore not
the concatenation of the per-query results — the claim as stated is
false. -/
theorem fact_checker_search_concat_cex :
    (fact_checker "Новина" ⟨false, none, none⟩
      ⟨TextOutcome.ok "q1", fun _ => PerplexityOutcome.ok "c" ["u"],
        TextOutcome.fail "boom"⟩).1.search_results = [] ∧
    (((parseQueries "q1").take 3).map
      (fun q => performWebSearch 3
        ((fun _ => PerplexityOutcome.ok "c" ["u"]) q))).flatten = [⟨"u", "c"⟩] := by
  decide

/-- Claim C9 (amended): on the non-cached path the Search Backend is
invoked exactly for (at most) the first 3 generated queries with a
3-result cap, each per-query result list has at most 3 entries, the
returned `searchResults` equals the concatenation of the per-query results
in input query order whenever the synthesis call succeeds (a synthesis
failure degrades the stage to empty results), and in every case at most 9
results are returned. -/
theorem fact_checker_search_bounds (content qtext : String)
    (px : String → PerplexityOutcome) (syn : TextOutcome) (cfg : FCConfig)
    (hc : pyIsBlank content = false) (hnc : cfg.useCache = false) :
    ((fact_checker content cfg ⟨TextOutcome.ok qtext, px, syn⟩).2.filter
        isSearchCall
      = ((parseQueries qtext).take 3).map (fun q => BackendCall.search q 3)) ∧
    (∀ q, (performWebSearch 3 (px q)).length ≤ 3) ∧
    (∀ t, syn = TextOutcome.ok t →
      (fact_checker content cfg ⟨TextOutcome.ok qtext, px, syn⟩).1.search_results
        = (((parseQueries qtext).take 3).map
            (fun q => performWebSearch 3 (px q))).flatten) ∧
    (fact_checker content cfg
      ⟨TextOutcome.ok qtext, px, syn⟩).1.search_results.length ≤ 9 := by
  have hq3 : ∀ q, (performWebSearch 3 (px q)).length ≤ 3 :=
    fun q => performWebSearch_le_three (px q)
  have hflat :
      (((parseQueries qtext).take 3).map
        (fun q => performWebSearch 3 (px q))).flatten.length ≤ 9 := by
    have hL : ∀ l ∈ ((parseQueries qtext).take 3).map
        (fun q => performWebSearch 3 (px q)), l.length ≤ 3 := by
      intro l hl
      rcases List.mem_map.1 hl with ⟨q, _, rfl⟩
      exact hq3 q
    have h1 := flatten_length_le_three_mul _ hL
    have h2 : (((parseQueries qtext).take 3).map
        (fun q => performWebSearch 3 (px q))).length ≤ 3 := by
      simp only [List.length_map, List.length_take]
      omega
    omega
  refine ⟨?_, hq3, ?_, ?_⟩
  · rcases hs : syn with e | t
    · simp only [fact_checker, factCheckerBody, hc, hnc, hs, List.filter_append,
        Bool.false_eq_true, if_false]
      simp [List.filter_append, isSearchCall, List.filter_eq_self]
      intro a ha
      rcases List.mem_map.1 (List.take_subset 3 _ ha) with ⟨q, hq, rfl⟩
      rfl
    · simp only [fact_checker, factCheckerBody, hc, hnc, hs, List.filter_append,
        Bool.false_eq_true, if_false]
      simp [List.filter_append, isSearchCall, List.filter_eq_self]
      intro a ha
      rcases List.mem_map.1 (List.take_subset 3 _ ha) with ⟨q, hq, rfl⟩
      rfl
  · intro t ht
    simp [fact_checker, factCheckerBody, hc, hnc, ht]
  · rcases hs : syn with e | t
    · simp [fact_checker, factCheckerBody, hc, hnc, hs, fcErrorOutput]
    · simpa [fact_checker, factCheckerBody, hc, hnc, hs] using hflat

/-- Claim C9 witness: the amended theorem at a concrete run with one
query, one search result and a successful synthesis. -/
theorem fact_checker_search_bounds_witness :
    (fact_checker "Новина" ⟨false, none, none⟩
      ⟨TextOutcome.ok "q1", fun _ => PerplexityOutcome.ok "c" ["u"],
        TextOutcome.ok "звіт"⟩).1.search_results
      = (((parseQueries "q1").take 3).map
          (fun q => performWebSearch 3
            ((fun _ => PerplexityOutcome.ok "c" ["u"]) q))).flatten :=
  (fact_checker_search_bounds "Новина" "q1" (fun _ => PerplexityOutcome.ok "c" ["u"])
    (TextOutcome.ok "звіт") ⟨false, none, none⟩ (by decide) rfl).2.2.1 "звіт" rfl

/-! ## C8: error containment across the pipeline -/

/-- Claim C8: a run of the graph never propagates an error to the caller —
for every input and every backend behaviour the pipeline returns a final
state — and when every backend call raises, each stage absorbs its own
failure and the run still completes, producing the verifier's
backend-failure fallback verdict built from the classifier's safe defaults
(probability 0, no techniques) with the verifier error embedded in the
explanation. -/
theorem pipeline_error_containment :
    (∀ (inp : PipelineInput) (b : PipelineBackends),
      ∃ v, runPipeline inp b = Except.ok v) ∧
    (∀ (inp : PipelineInput) (e1 e2 e3 e4 e5 e6 e7 : String),
      pyIsBlank inp.content = false → inp.useBinaryClassifier = true →
      inp.fcConfig.useCache = false →
      runPipeline inp (allFailBackends e1 e2 e3 e4 e5 e6 e7)
        = Except.ok (fallbackVerdict 0 [] (errorFallbackText 0 e7))) := by
  constructor
  · intro inp b
    exact ⟨_, rfl⟩
  · intro inp e1 e2 e3 e4 e5 e6 e7 hc hbin hnc
    have hcls : classifierStage inp (allFailBackends e1 e2 e3 e4 e5 e6 e7)
        = (0, []) := by
      rcases hm : MODELS inp.modelKey with _ | cfg
      · simp [classifierStage, allFailBackends, hbin, hc,
          manipulation_classifier_binary, hm, safeClsOutput]
      · simp [classifierStage, allFailBackends, hbin, hc,
          manipulation_classifier_binary, hm, safeClsOutput]
    simp only [allFailBackends] at hcls
    simp [runPipeline, hcls, allFailBackends, fact_checker, factCheckerBody,
      hnc, narrative_extractor, hc, verifierNode, verifierBody]
    rfl

/-- Claim C8 witness: a concrete run in which every backend raises still
returns a verdict. -/
theorem pipeline_error_containment_witness :
    runPipeline ⟨"Новина", "id", true, "lapa-llm", none, ⟨false, none, none⟩⟩
      (allFailBackends "b1" "b2" "b3" "b4" "b5" "b6" "b7")
      = Except.ok (fallbackVerdict 0 [] (errorFallbackText 0 "b7")) :=
  pipeline_error_containment.2 _ "b1" "b2" "b3" "b4" "b5" "b6" "b7"
    (by decide) rfl rfl

/-! ## C10: exact-threshold behaviour of the multilabel classifier -/

lemma foldl_max_init_le :
    ∀ (rs : List ClsResult) (a : ℚ),
      a ≤ rs.foldl (fun m x => max m x.score) a
  | [], a => le_refl a
  | x :: rs, a => le_trans (le_max_left a x.score) (foldl_max_init_le rs _)

lemma foldl_max_le_of_mem :
    ∀ (rs : List ClsResult) (a : ℚ) (r : ClsResult), r ∈ rs →
      r.score ≤ rs.foldl (fun m x => max m x.score) a
  | [], _, _, h => absurd h (List.not_mem_nil _)
  | x :: rs, a, r, h => by
    rcases List.mem_cons.1 h with rfl | hmem
    · exact le_trans (le_max_right a r.score) (foldl_max_init_le rs _)
    · exact foldl_max_le_of_mem rs _ r hmem

lemma multilabelFold_snd_nil (t : ℚ) :
    ∀ (rs : List ClsResult) (a : ℚ) (l : List String),
      (∀ r ∈ rs, ¬ t < r.score) →
      (rs.foldl
        (fun acc r =>
          (max acc.1 r.score,
           if t < r.score then acc.2 ++ [labelMappingGet r.label] else acc.2))
        (a, l)).2 = l
  | [], _, _, _ => rfl
  | r :: rs, a, l, h => by
    simp only [List.foldl_cons, if_neg (h r (List.mem_cons_self r rs))]
    exact multilabelFold_snd_nil t rs _ _
      (fun x hx => h x (List.mem_cons_of_mem r hx))

/-- Claim C10: with the multilabel scoring backend, when every category
score is at most the active threshold and the maximum equals it exactly,
the stage decides `is_manipulation = true` (the decision uses `score >=
threshold`) while `manipulation_techniques` is empty (a category becomes a
technique only for `score > threshold`). -/
theorem multilabel_exact_threshold (content : String) (t : ℚ)
    (rs : List ClsResult) (hc : pyIsBlank content = false)
    (hall : ∀ r ∈ rs, r.score ≤ t) (hex : ∃ r ∈ rs, r.score = t) :
    (manipulation_classifier_binary content "modern-bert" (some t)
      (ScoreOutcome.ok rs)).1.is_manipulation = true ∧
    (manipulation_classifier_binary content "modern-bert" (some t)
      (ScoreOutcome.ok rs)).1.manipulation_techniques = [] := by
  have hm : MODELS "modern-bert" = some ⟨ModelKind.multilabel, mkRat 15 100⟩ := rfl
  constructor
  · simp only [manipulation_classifier_binary, hm, hc, Bool.false_eq_true,
      if_false, Option.getD_some]
    simp only [clsScore, multilabelFold_fst, decide_eq_true_eq]
    rcases hex with ⟨r, hr, hre⟩
    exact hre ▸ foldl_max_le_of_mem rs 0 r hr
  · simp only [manipulation_classifier_binary, hm, hc, Bool.false_eq_true,
      if_false, Option.getD_some]
    simp only [clsTechniques, multilabelFold]
    exact multilabelFold_snd_nil t rs 0 []
      (fun x hx => not_lt.2 (hall x hx))

/-- Claim C10 witness: one category at exactly the default 0.15 threshold
gives `is_manipulation = true` with no techniques. -/
theorem multilabel_exact_threshold_witness :
    (manipulation_classifier_binary "Текст" "modern-bert" (some (mkRat 15 100))
      (ScoreOutcome.ok [⟨"LABEL_0", mkRat 15 100⟩])).1.is_manipulation = true ∧
    (manipulation_classifier_binary "Текст" "modern-bert" (some (mkRat 15 100))
      (ScoreOutcome.ok [⟨"LABEL_0", mkRat 15 100⟩])).1.manipulation_techniques
      = [] :=
  multilabel_exact_threshold "Текст" (mkRat 15 100) [⟨"LABEL_0", mkRat 15 100⟩]
    (by decide) (by decide) (by decide)

end VerifAI
